import Mathlib

/-!
Verification of the MapPage view logic of the `dihapp` repository
(`src/pages/MapPage.jsx`), shallowly embedded in Lean 4.

The component's pure parts (the filter predicate `filteredPlaces`, the
icon descriptor `createIcon`, the category colour table, `defaultCenter`)
are translated directly.  The stateful parts (React `useState` hooks and
`setTimeout` callbacks) are embedded as a record `PageState` together
with explicit state-transition functions for each handler; a scheduled
`setTimeout` callback becomes a `TimerTask` appended to a pending-task
list, and firing a timer applies `runTimerAction`.  Remote effects
(query-cache invalidation, the remote update mutation, the map widget's
`fitBounds` call) are reified as an `Effect` list returned alongside the
new state.
-/

namespace MapPage

/-- A saved place, as held in the cached remote list.  Coordinates are
embedded as rationals, the category as a string (unmatched categories are
legal and get the default colour), `id` as a natural number standing in
for the opaque identifier. -/
structure Place where
  id : Nat
  latitude : ℚ
  longitude : ℚ
  category : String
  is_favorite : Bool
  deriving DecidableEq, Repr

/-- The bounding box produced by the map widget for `fitBounds`:
south/north bound the latitudes, west/east bound the longitudes. -/
structure Bounds where
  south : ℚ
  north : ℚ
  west : ℚ
  east : ℚ
  deriving DecidableEq, Repr

/-- External effects issued by the handlers, reified as data. -/
inductive Effect where
  | invalidatePlaces : Effect
  | remoteUpdate (id : Nat) (is_favorite : Bool) : Effect
  | fitBounds (b : Bounds) (padding : Nat × Nat) : Effect
  deriving DecidableEq, Repr

/-- The body of a `setTimeout` callback scheduled by a handler. -/
inductive TimerAction where
  | searchSelectDone (p : Place) : TimerAction
  | addPlaceSelect (p : Place) : TimerAction
  deriving DecidableEq, Repr

/-- A pending one-shot timer: its delay in milliseconds and its action. -/
structure TimerTask where
  delayMs : Nat
  action : TimerAction
  deriving DecidableEq, Repr

/-- The component state: one field per `useState` hook of `MapPage`,
plus the list of pending `setTimeout` tasks. -/
structure PageState where
  selectedPlace : Option Place
  showAddForm : Bool
  filterCategory : String
  showFavoritesOnly : Bool
  mapCenter : Option (ℚ × ℚ)
  mapZoom : Option ℚ
  highlightedPlace : Option Place
  currentZoom : ℚ
  timers : List TimerTask
  deriving DecidableEq, Repr

/-- The initial values of the `useState` hooks. -/
def initialState : PageState :=
  { selectedPlace := none
  , showAddForm := false
  , filterCategory := "all"
  , showFavoritesOnly := false
  , mapCenter := none
  , mapZoom := none
  , highlightedPlace := none
  , currentZoom := 12
  , timers := [] }

/-- The filter predicate from `filteredPlaces` (MapPage.jsx:167-171):
`(filterCategory === 'all' || place.category === filterCategory) &&
 (!showFavoritesOnly || place.is_favorite)`. -/
def placeMatches (filterCategory : String) (showFavoritesOnly : Bool)
    (place : Place) : Bool :=
  (filterCategory == "all" || place.category == filterCategory) &&
  (!showFavoritesOnly || place.is_favorite)

/-- `filteredPlaces` (MapPage.jsx:167-171): the visible subset of the
cached list, `places.filter(...)`. -/
def filteredPlaces (filterCategory : String) (showFavoritesOnly : Bool)
    (places : List Place) : List Place :=
  places.filter (placeMatches filterCategory showFavoritesOnly)

/-- The rendering descriptor built by `createIcon` (MapPage.jsx:26-45):
the fields of the `divIcon` options that the claims speak about, plus the
colour interpolated into the SVG path fill. -/
structure IconDescriptor where
  className : String
  color : String
  width : Nat
  height : Nat
  iconSize : Nat × Nat
  iconAnchor : Nat × Nat
  popupAnchor : Int × Int
  deriving DecidableEq, Repr

/-- `createIcon(color, zoomLevel = 12)` (MapPage.jsx:26-45): two size
tiers selected by `zoomLevel < 13`. -/
def createIcon (color : String) (zoomLevel : ℚ := 12) : IconDescriptor :=
  let isZoomedOut := zoomLevel < 13
  let size : Nat := if isZoomedOut then 16 else 32
  let height : Nat := if isZoomedOut then 21 else 42
  { className := "custom-marker"
  , color := color
  , width := size
  , height := height
  , iconSize := (size, height)
  , iconAnchor := (size / 2, height)
  , popupAnchor := (0, -(height : Int)) }

/-- The `categoryColors` object literal (MapPage.jsx:47-53), as a partial
lookup: `none` for a key the object does not have. -/
def categoryColors (category : String) : Option String :=
  if category = "restaurant" then some "#f43f5e"
  else if category = "activity" then some "#10b981"
  else if category = "bar" then some "#a855f7"
  else if category = "cafe" then some "#d97706"
  else if category = "landmark" then some "#3b82f6"
  else none

/-- The colour actually passed to `createIcon` at the marker render site
(MapPage.jsx:350): `categoryColors[place.category] || '#6b7280'`. -/
def markerColor (category : String) : String :=
  (categoryColors category).getD "#6b7280"

/-- The composite icon computation for one marker (MapPage.jsx:350):
`createIcon(categoryColors[place.category] || '#6b7280', currentZoom)`. -/
def iconFor (category : String) (currentZoom : ℚ) : IconDescriptor :=
  createIcon (markerColor category) currentZoom

/-- `defaultCenter` (MapPage.jsx:173-175): the first visible place's
coordinates, or the fixed fallback `[40.7128, -74.0060]` when no place is
visible. -/
def defaultCenter (fp : List Place) : ℚ × ℚ :=
  match fp with
  | [] => (40.7128, -74.0060)
  | p :: _ => (p.latitude, p.longitude)

/-- The `zoom={12}` prop of the `MapContainer` (MapPage.jsx:315). -/
def initialMapZoom : ℚ := 12

/-- `handleSearchSelect` (MapPage.jsx:157-165): recenter to the place at
zoom 16, highlight it, and schedule a 1500 ms callback that selects it
and clears the highlight.  It performs no `setSelectedPlace` call of its
own. -/
def handleSearchSelect (place : Place) (s : PageState) : PageState :=
  { s with
    mapCenter := some (place.latitude, place.longitude)
  , mapZoom := some 16
  , highlightedPlace := some place
  , timers := s.timers ++ [⟨1500, TimerAction.searchSelectDone place⟩] }

/-- `handlePlaceAdded` (MapPage.jsx:149-155): invalidate the places
cache, close the add form, recenter to the new place at zoom 15, and
schedule an 800 ms callback that selects it. -/
def handlePlaceAdded (newPlace : Place) (s : PageState) :
    PageState × List Effect :=
  ({ s with
     showAddForm := false
   , mapCenter := some (newPlace.latitude, newPlace.longitude)
   , mapZoom := some 15
   , timers := s.timers ++ [⟨800, TimerAction.addPlaceSelect newPlace⟩] },
   [Effect.invalidatePlaces])

/-- Firing the callback of a scheduled timer (the `setTimeout` bodies at
MapPage.jsx:161-164 and MapPage.jsx:154). -/
def runTimerAction : TimerAction → PageState → PageState
  | TimerAction.searchSelectDone p, s =>
      { s with selectedPlace := some p, highlightedPlace := none }
  | TimerAction.addPlaceSelect p, s =>
      { s with selectedPlace := some p }

/-- Modelled from the spec: the remote store behind
`base44.entities.Place.update(id, partialFields)` is not part of this
repository; section 4.1 says the update "applies partial fields to the
remote Place".  The store is embedded as a list of places and the
partial update `{is_favorite: fav}` rewrites that field on every place
with the given id. -/
def remoteUpdateStore (store : List Place) (id : Nat) (fav : Bool) :
    List Place :=
  store.map (fun q => if q.id = id then { q with is_favorite := fav } else q)

/-- `handleToggleFavorite` (MapPage.jsx:142-147) together with the
mutation's `onSuccess` (MapPage.jsx:137-139): issue the remote update
with the negated snapshot flag, then invalidate the cache.  No local
state field is written, so the local state is returned unchanged. -/
def handleToggleFavorite (place : Place) (s : PageState)
    (store : List Place) : PageState × List Place × List Effect :=
  (s,
   remoteUpdateStore store place.id (!place.is_favorite),
   [Effect.remoteUpdate place.id (!place.is_favorite),
    Effect.invalidatePlaces])

/-- One extension step of the map widget's bounding box: the box grown to
also cover the given `(latitude, longitude)` point. -/
def extendBounds (b : Bounds) (pt : ℚ × ℚ) : Bounds :=
  { south := min b.south pt.1
  , north := max b.north pt.1
  , west := min b.west pt.2
  , east := max b.east pt.2 }

/-- Modelled from the spec: `L.latLngBounds` is the external map
widget's constructor; section 4.3 says recentering "computes the bounding
box covering every given place's coordinates".  It is embedded as the
min/max box over the coordinate list, `none` on the empty list. -/
def latLngBounds : List (ℚ × ℚ) → Option Bounds
  | [] => none
  | pt :: rest => some (rest.foldl extendBounds ⟨pt.1, pt.1, pt.2, pt.2⟩)

/-- `handleRecenter` (MapPage.jsx:177-184): when at least one place is
visible, ask the widget to fit the bounding box of the visible
coordinates with padding `[50, 50]`; otherwise do nothing.  No state
field is written in either case. -/
def handleRecenter (places : List Place) (s : PageState) :
    PageState × Option Effect :=
  let fp := filteredPlaces s.filterCategory s.showFavoritesOnly places
  if fp.length > 0 then
    (s, (latLngBounds (fp.map fun p => (p.latitude, p.longitude))).map
          fun b => Effect.fitBounds b (50, 50))
  else
    (s, none)

/-- Membership of a point in a bounding box. -/
def Bounds.covers (b : Bounds) (pt : ℚ × ℚ) : Prop :=
  b.south ≤ pt.1 ∧ pt.1 ≤ b.north ∧ b.west ≤ pt.2 ∧ pt.2 ≤ b.east

/-- A concrete non-favourite bar place, used to instantiate theorems. -/
def sampleBar : Place :=
  { id := 1, latitude := 40.7, longitude := -74.0
  , category := "bar", is_favorite := false }

/-- A concrete favourite cafe place, used to instantiate theorems. -/
def sampleCafe : Place :=
  { id := 2, latitude := 40.72, longitude := -73.99
  , category := "cafe", is_favorite := true }

/-- The initial state with `sampleBar`'s detail card open. -/
def initialStateWithBar : PageState :=
  { initialState with selectedPlace := some sampleBar }

end MapPage

namespace MapPage

lemma covers_extendBounds {b : Bounds} {x : ℚ × ℚ} (pt : ℚ × ℚ)
    (h : b.covers x) : (extendBounds b pt).covers x := by
  obtain ⟨h1, h2, h3, h4⟩ := h
  exact ⟨le_trans (min_le_left _ _) h1, le_trans h2 (le_max_left _ _),
    le_trans (min_le_left _ _) h3, le_trans h4 (le_max_left _ _)⟩

lemma covers_extendBounds_self (b : Bounds) (pt : ℚ × ℚ) :
    (extendBounds b pt).covers pt :=
  ⟨min_le_right _ _, le_max_right _ _, min_le_right _ _, le_max_right _ _⟩

lemma covers_foldl_extendBounds {x : ℚ × ℚ} :
    ∀ (l : List (ℚ × ℚ)) (b : Bounds), b.covers x →
      (l.foldl extendBounds b).covers x
  | [], _, h => h
  | pt :: rest, b, h =>
      covers_foldl_extendBounds rest (extendBounds b pt)
        (covers_extendBounds pt h)

lemma covers_foldl_extendBounds_mem {x : ℚ × ℚ} :
    ∀ (l : List (ℚ × ℚ)) (b : Bounds), x ∈ l →
      (l.foldl extendBounds b).covers x
  | pt :: rest, b, h => by
      rcases List.mem_cons.1 h with h | h
      · subst h
        exact covers_foldl_extendBounds rest _ (covers_extendBounds_self b x)
      · exact covers_foldl_extendBounds_mem rest _ h

lemma latLngBounds_covers {pts : List (ℚ × ℚ)} {b : Bounds}
    (hb : latLngBounds pts = some b) : ∀ x ∈ pts, b.covers x := by
  match pts with
  | [] => simp [latLngBounds] at hb
  | pt :: rest =>
      simp only [latLngBounds, Option.some.injEq] at hb
      subst hb
      intro x hx
      rcases List.mem_cons.1 hx with h | h
      · subst h
        exact covers_foldl_extendBounds rest _ ⟨le_refl _, le_refl _, le_refl _, le_refl _⟩
      · exact covers_foldl_extendBounds_mem rest _ h

/-- C1: for every list of places and filter state `(c, f)`, the visible
place list contains exactly those places with (`c` is `"all"` or the
place's category equals `c`) and (not `f` or the place is a
favourite). -/
theorem c1_visible_places_mem (c : String) (f : Bool) (L : List Place)
    (p : Place) :
    p ∈ filteredPlaces c f L ↔
      p ∈ L ∧ (c = "all" ∨ p.category = c) ∧ (f = false ∨ p.is_favorite = true) := by
  simp only [filteredPlaces, List.mem_filter, placeMatches,
    Bool.and_eq_true, Bool.or_eq_true, beq_iff_eq, Bool.not_eq_true']

/-- C2 counterexample: search-select does not set the selection to null.
From a state whose card already shows `sampleCafe`, search-selecting
`sampleBar` leaves the selection at `sampleCafe` instead of null. -/
theorem c2_counterexample :
    (handleSearchSelect sampleBar
        { initialState with selectedPlace := some sampleCafe }).selectedPlace
      = some sampleCafe ∧ some sampleCafe ≠ (none : Option Place) := by
  refine ⟨rfl, by simp⟩

/-- C2 (amended): search-select on `p` immediately sets the highlight to
`p`, leaves the selection unchanged, and sets the viewport target to
`p`'s coordinates at zoom 16; firing the scheduled 1500 ms callback then
clears the highlight and sets the selection to `p`. -/
theorem c2_search_select (p : Place) (s : PageState) :
    (handleSearchSelect p s).highlightedPlace = some p ∧
    (handleSearchSelect p s).selectedPlace = s.selectedPlace ∧
    (handleSearchSelect p s).mapCenter = some (p.latitude, p.longitude) ∧
    (handleSearchSelect p s).mapZoom = some 16 ∧
    (handleSearchSelect p s).timers
      = s.timers ++ [⟨1500, TimerAction.searchSelectDone p⟩] ∧
    (runTimerAction (TimerAction.searchSelectDone p)
        (handleSearchSelect p s)).highlightedPlace = none ∧
    (runTimerAction (TimerAction.searchSelectDone p)
        (handleSearchSelect p s)).selectedPlace = some p :=
  ⟨rfl, rfl, rfl, rfl, rfl, rfl, rfl⟩

/-- C3: the add-place success handler immediately targets the viewport
at the new place's coordinates with zoom 15, invalidates the places
cache, closes the form, and schedules an 800 ms callback whose firing
selects the new place. -/
theorem c3_place_added (p : Place) (s : PageState) :
    (handlePlaceAdded p s).1.mapCenter = some (p.latitude, p.longitude) ∧
    (handlePlaceAdded p s).1.mapZoom = some 15 ∧
    (handlePlaceAdded p s).2 = [Effect.invalidatePlaces] ∧
    (handlePlaceAdded p s).1.showAddForm = false ∧
    (handlePlaceAdded p s).1.selectedPlace = s.selectedPlace ∧
    (handlePlaceAdded p s).1.timers
      = s.timers ++ [⟨800, TimerAction.addPlaceSelect p⟩] ∧
    (runTimerAction (TimerAction.addPlaceSelect p)
        (handlePlaceAdded p s).1).selectedPlace = some p :=
  ⟨rfl, rfl, rfl, rfl, rfl, rfl, rfl⟩

/-- C4: the marker icon uses the small tier (16×21) below zoom 13 and
the large tier (32×42) at or above 13, for every category; the colour is
the fixed per-category colour, falling back to the neutral `#6b7280` for
a category outside the colour table. -/
theorem c4_icon_tiers (cat : String) (z : ℚ) :
    (z < 13 → (iconFor cat z).iconSize = (16, 21)) ∧
    (13 ≤ z → (iconFor cat z).iconSize = (32, 42)) ∧
    (iconFor cat z).color = (categoryColors cat).getD "#6b7280" ∧
    (categoryColors cat = none → (iconFor cat z).color = "#6b7280") := by
  refine ⟨fun h => ?_, fun h => ?_, rfl, fun h => ?_⟩
  · simp [iconFor, createIcon, h]
  · have h' : ¬ z < 13 := not_lt.mpr h
    simp [iconFor, createIcon, h']
  · simp [iconFor, createIcon, markerColor, h]

/-- Witness for C4 at concrete inputs: an unknown category at zoom 12
gets the small tier and the neutral colour; a restaurant at zoom 14 gets
the large tier. -/
theorem c4_icon_tiers_witness :
    (iconFor "museum" 12).iconSize = (16, 21) ∧
    (iconFor "restaurant" 14).iconSize = (32, 42) ∧
    (iconFor "museum" 12).color = "#6b7280" :=
  ⟨(c4_icon_tiers "museum" 12).1 (by norm_num),
   (c4_icon_tiers "restaurant" 14).2.1 (by norm_num),
   (c4_icon_tiers "museum" 12).2.2.2 (by decide)⟩

/-- C5: toggling the favourite of `p` issues a remote update setting
`is_favorite` to the negation of the snapshot's flag and then
invalidates the places cache; the local state is untouched, and if some
stored place has `p`'s id, the refetched store contains a place with
that id whose flag is the negation. -/
theorem c5_toggle_favorite (p : Place) (s : PageState)
    (store : List Place) (h : ∃ q ∈ store, q.id = p.id) :
    (handleToggleFavorite p s store).1 = s ∧
    (handleToggleFavorite p s store).2.2
      = [Effect.remoteUpdate p.id (!p.is_favorite), Effect.invalidatePlaces] ∧
    ∃ q ∈ (handleToggleFavorite p s store).2.1,
      q.id = p.id ∧ q.is_favorite = !p.is_favorite := by
  obtain ⟨q, hq, hid⟩ := h
  refine ⟨rfl, rfl, { q with is_favorite := !p.is_favorite }, ?_, hid, rfl⟩
  simp only [handleToggleFavorite, remoteUpdateStore, List.mem_map]
  exact ⟨q, hq, by simp [hid]⟩

/-- Witness for C5: toggling `sampleBar` against a store holding both
sample places yields the store with the bar marked favourite. -/
theorem c5_toggle_favorite_witness :
    (∃ q ∈ [sampleBar, sampleCafe], q.id = sampleBar.id) ∧
    ∃ q ∈ (handleToggleFavorite sampleBar initialState
        [sampleBar, sampleCafe]).2.1,
      q.id = sampleBar.id ∧ q.is_favorite = !sampleBar.is_favorite :=
  ⟨⟨sampleBar, by simp, rfl⟩,
   (c5_toggle_favorite sampleBar initialState [sampleBar, sampleCafe]
      ⟨sampleBar, by simp, rfl⟩).2.2⟩

/-- C6: the visible list is an order-preserving subsequence of the full
cached list, its length never exceeds the input's, and recomputing it
from the same inputs returns the identical ordered output. -/
theorem c6_visible_sublist (c : String) (f : Bool) (L : List Place) :
    (filteredPlaces c f L).Sublist L ∧
    (filteredPlaces c f L).length ≤ L.length ∧
    filteredPlaces c f L = filteredPlaces c f L :=
  ⟨List.filter_sublist L, (List.filter_sublist L).length_le, rfl⟩

/-- C7: recenter with no visible place is a no-op issuing no widget
call; with at least one visible place it issues a single `fitBounds`
call with padding `[50, 50]` on a box covering every visible place's
coordinates.  The state is unchanged in both cases. -/
theorem c7_recenter (places : List Place) (s : PageState) :
    (handleRecenter places s).1 = s ∧
    (filteredPlaces s.filterCategory s.showFavoritesOnly places = [] →
      (handleRecenter places s).2 = none) ∧
    (filteredPlaces s.filterCategory s.showFavoritesOnly places ≠ [] →
      ∃ b, (handleRecenter places s).2 = some (Effect.fitBounds b (50, 50)) ∧
        ∀ p ∈ filteredPlaces s.filterCategory s.showFavoritesOnly places,
          b.covers (p.latitude, p.longitude)) := by
  refine ⟨?_, fun h => ?_, fun h => ?_⟩
  · by_cases hlen : (filteredPlaces s.filterCategory s.showFavoritesOnly
        places).length > 0 <;> simp [handleRecenter, hlen]
  · simp [handleRecenter, h]
  · obtain ⟨q, rest, hfp⟩ := List.exists_cons_of_ne_nil h
    have hlen : (filteredPlaces s.filterCategory s.showFavoritesOnly
        places).length > 0 := by
      rw [hfp]; exact Nat.succ_pos _
    obtain ⟨b, hb⟩ : ∃ b,
        latLngBounds ((filteredPlaces s.filterCategory s.showFavoritesOnly
          places).map fun p => (p.latitude, p.longitude)) = some b := by
      rw [hfp]; exact ⟨_, rfl⟩
    refine ⟨b, ?_, ?_⟩
    · simp [handleRecenter, hlen, hb]
    · intro p hp
      exact latLngBounds_covers hb _ (List.mem_map_of_mem _ hp)

/-- Witness for C7: an empty store yields no widget call; a store with
both sample places (default filter) yields a fitBounds call on a box
covering them. -/
theorem c7_recenter_witness :
    (handleRecenter [] initialState).2 = none ∧
    ∃ b, (handleRecenter [sampleBar, sampleCafe] initialState).2
        = some (Effect.fitBounds b (50, 50)) ∧
      ∀ p ∈ filteredPlaces initialState.filterCategory
          initialState.showFavoritesOnly [sampleBar, sampleCafe],
        b.covers (p.latitude, p.longitude) :=
  ⟨(c7_recenter [] initialState).2.1 (by decide),
   (c7_recenter [sampleBar, sampleCafe] initialState).2.2 (by decide)⟩

/-- C8: scheduling a second deferred selection appends a new timer and
never removes the earlier one, and when two deferred actions fire in
sequence the later-firing action alone determines the final selection
(last-write-wins). -/
theorem c8_timers_no_cancel (p₁ p₂ : Place) (s : PageState) :
    (handleSearchSelect p₂ (handleSearchSelect p₁ s)).timers
      = s.timers ++ [⟨1500, TimerAction.searchSelectDone p₁⟩,
                     ⟨1500, TimerAction.searchSelectDone p₂⟩] ∧
    (handlePlaceAdded p₂ (handleSearchSelect p₁ s)).1.timers
      = s.timers ++ [⟨1500, TimerAction.searchSelectDone p₁⟩,
                     ⟨800, TimerAction.addPlaceSelect p₂⟩] ∧
    ∀ (a₁ a₂ : TimerAction) (s' : PageState),
      (runTimerAction a₂ (runTimerAction a₁ s')).selectedPlace
        = (runTimerAction a₂ s').selectedPlace := by
  refine ⟨?_, ?_, fun a₁ a₂ s' => ?_⟩
  · simp [handleSearchSelect]
  · simp [handleSearchSelect, handlePlaceAdded]
  · cases a₂ <;> rfl

/-- C9: the map's initial center is the first visible place's
coordinates when the visible list is non-empty and the fixed fallback
`[40.7128, -74.0060]` when it is empty; the initial zoom is 12. -/
theorem c9_default_center (c : String) (f : Bool) (L : List Place) :
    (∀ p fp, filteredPlaces c f L = p :: fp →
      defaultCenter (filteredPlaces c f L) = (p.latitude, p.longitude)) ∧
    (filteredPlaces c f L = [] →
      defaultCenter (filteredPlaces c f L) = (40.7128, -74.0060)) ∧
    initialMapZoom = 12 := by
  refine ⟨fun p fp h => ?_, fun h => ?_, rfl⟩
  · rw [h]; rfl
  · rw [h]; rfl

/-- Witness for C9: with only `sampleBar` stored and the default filter,
the initial center is the bar's coordinates; with an empty store it is
the fixed fallback. -/
theorem c9_default_center_witness :
    defaultCenter (filteredPlaces "all" false [sampleBar])
      = (sampleBar.latitude, sampleBar.longitude) ∧
    defaultCenter (filteredPlaces "all" false [])
      = (40.7128, -74.0060) :=
  ⟨(c9_default_center "all" false [sampleBar]).1 sampleBar [] rfl,
   (c9_default_center "all" false []).2.1 rfl⟩

/-- C10: toggling a favourite writes no local view state: every state
field is unchanged; in particular a selection of the toggled place keeps
referencing the pre-update snapshot while every refetched store entry
with that id already carries the negated flag. -/
theorem c10_toggle_frame (p : Place) (s : PageState) (store : List Place) :
    (handleToggleFavorite p s store).1.filterCategory = s.filterCategory ∧
    (handleToggleFavorite p s store).1.showFavoritesOnly = s.showFavoritesOnly ∧
    (handleToggleFavorite p s store).1.mapCenter = s.mapCenter ∧
    (handleToggleFavorite p s store).1.mapZoom = s.mapZoom ∧
    (handleToggleFavorite p s store).1.highlightedPlace = s.highlightedPlace ∧
    (handleToggleFavorite p s store).1.selectedPlace = s.selectedPlace ∧
    (s.selectedPlace = some p →
      (handleToggleFavorite p s store).1.selectedPlace = some p ∧
      ∀ q ∈ (handleToggleFavorite p s store).2.1,
        q.id = p.id → q.is_favorite = !p.is_favorite) := by
  refine ⟨rfl, rfl, rfl, rfl, rfl, rfl, fun h => ⟨h, fun q hq hid => ?_⟩⟩
  simp only [handleToggleFavorite, remoteUpdateStore, List.mem_map] at hq
  obtain ⟨q₀, _, rfl⟩ := hq
  by_cases hc : q₀.id = p.id
  · simp [hc]
  · simp only [if_neg hc] at hid ⊢
    exact absurd hid hc

/-- Witness for C10: with `sampleBar` selected and stored, after the
toggle the selection still holds the old snapshot and the store entry
with its id carries the negated flag. -/
theorem c10_toggle_frame_witness :
    initialStateWithBar.selectedPlace = some sampleBar ∧
    (handleToggleFavorite sampleBar initialStateWithBar
        [sampleBar]).1.selectedPlace = some sampleBar ∧
    ∀ q ∈ (handleToggleFavorite sampleBar initialStateWithBar
        [sampleBar]).2.1,
      q.id = sampleBar.id → q.is_favorite = !sampleBar.is_favorite :=
  ⟨rfl,
   (c10_toggle_frame sampleBar initialStateWithBar [sampleBar]).2.2.2.2.2.2
     rfl⟩

end MapPage
